import Mathlib

/-!
Verification development for the alpha-arena-okx trading agent.

The Python sources are shallowly embedded as pure Lean functions:
external effects (the exchange connector, the advisory service, wall-clock
time) are passed in explicitly as oracle arguments, Python floats are
modelled as rationals, fallible calls are modelled with `Except`, and the
mutable module-level cells (the position cache, the restart counter, the
token bucket) are threaded as explicit state.
-/

namespace AlphaArena

/-- A parsed position as built by `get_current_position` in
`deepseekok2.py` (the dict with side/size/entry price/pnl/leverage/symbol). -/
structure Position where
  side : String
  size : ℚ
  entry_price : ℚ
  unrealized_pnl : ℚ
  leverage : ℚ
  symbol : String
deriving DecidableEq

/-- The module-level `position_cache` dict of `deepseekok2.py`
(fields `data`, `timestamp`, `ttl`; initially `data = none`,
`timestamp = none`, `ttl = 5`). -/
structure PosCache where
  data : Option Position
  timestamp : Option ℚ
  ttl : ℚ
deriving DecidableEq

/-- One raw entry of the list returned by `exchange.fetch_positions`,
with the fields `get_current_position` reads.  `leverage = none` models a
falsy leverage field, which falls back to the configured leverage. -/
structure RawPosition where
  symbol : String
  side : String
  contracts : ℚ
  entryPrice : ℚ
  unrealizedPnl : ℚ
  leverage : Option ℚ
deriving DecidableEq

/-- The `for pos in positions:` loop of `get_current_position`: the first
entry for the configured symbol with `contracts > 0` becomes the position
dict; otherwise the result is `none` (no position). -/
def find_position (symbol : String) (default_leverage : ℚ) :
    List RawPosition → Option Position
  | [] => none
  | p :: ps =>
      if p.symbol = symbol ∧ 0 < p.contracts then
        some ⟨p.side, p.contracts, p.entryPrice, p.unrealizedPnl,
              p.leverage.getD default_leverage, p.symbol⟩
      else find_position symbol default_leverage ps

/-- `get_current_position(use_cache)` of `deepseekok2.py`.  The external
fetch is the oracle argument `fetch` (`Except.error` models the fetch
raising).  Returns the position reported to the caller, the cache cell
after the call, and whether an external fetch was issued.

Mirrors the source exactly: the cache is served only when `use_cache` is
set, `position_cache['data']` is truthy (a cached `none` is falsy in
Python and never hits), and the entry's age is below the TTL; a
successful fetch overwrites `data` and `timestamp` (also for the
no-position result); a failed fetch leaves the cell untouched and falls
back to the stale entry, or to `none` when no entry exists (the exception
is swallowed, never re-raised). -/
def get_current_position (symbol : String) (default_leverage : ℚ)
    (cache : PosCache) (use_cache : Bool) (now : ℚ)
    (fetch : Except Unit (List RawPosition)) :
    Option Position × PosCache × Bool :=
  let hit : Bool :=
    use_cache && cache.data.isSome &&
      (match cache.timestamp with
       | some ts => decide (now - ts < cache.ttl)
       | none => false)
  if hit then (cache.data, cache, false)
  else
    match fetch with
    | Except.ok positions =>
        let result := find_position symbol default_leverage positions
        (result, { cache with data := result, timestamp := some now }, true)
    | Except.error _ =>
        if cache.data.isSome then (cache.data, cache, true)
        else (none, cache, true)

/-- Claim C10: when the external positions fetch raises, the cache cell is
left unchanged, the value returned is exactly the pre-call cached value
(the stale entry), and in particular with no prior cache entry the call
returns `none` instead of raising. -/
theorem get_current_position_error_atomic (symbol : String)
    (default_leverage : ℚ) (cache : PosCache) (use_cache : Bool) (now : ℚ) :
    (get_current_position symbol default_leverage cache use_cache now
        (Except.error ())).1 = cache.data ∧
    (get_current_position symbol default_leverage cache use_cache now
        (Except.error ())).2.1 = cache := by
  unfold get_current_position
  cases hcd : cache.data with
  | none => simp [hcd]
  | some p =>
      by_cases huc : use_cache
      · simp only [hcd, huc]
        split <;> simp
      · simp [hcd, huc]

/-- Claim C4 counterexample: a successful refresh at time 0 caches the
no-position state (`data = none`, `timestamp = some 0`), yet a second read
with `use_cache = true` only 1 second later (well inside the 5-second TTL)
still issues an external fetch — the cached `none` is falsy in the
source's `if use_cache and position_cache['data']:` test and is never
served, so two in-TTL reads are *not* limited to one fetch for every
cached value. -/
theorem position_cache_cached_none_refetches :
    (get_current_position "ETH/USDT:USDT" 10 ⟨none, none, 5⟩ true 0
        (Except.ok [])).2 = (⟨none, some 0, 5⟩, true) ∧
    (get_current_position "ETH/USDT:USDT" 10 ⟨none, some 0, 5⟩ true 1
        (Except.ok [])).2.2 = true := by
  constructor <;> rfl

/-- Claim C4 (amended): a read with `use_cache = true` within the TTL of a
preceding successful refresh is served from cache without an external
fetch when the cached value is a non-`none` position; the cached
no-position (`none`) entry, however, is never served — such a read always
issues another external fetch. -/
theorem position_cache_ttl_hit (p : Position) (t0 t1 ttl : ℚ)
    (symbol : String) (default_leverage : ℚ)
    (fetch : Except Unit (List RawPosition)) (h : t1 - t0 < ttl) :
    get_current_position symbol default_leverage ⟨some p, some t0, ttl⟩
        true t1 fetch = (some p, ⟨some p, some t0, ttl⟩, false) ∧
    (get_current_position symbol default_leverage ⟨none, some t0, ttl⟩
        true t1 fetch).2.2 = true := by
  constructor
  · simp [get_current_position, h]
  · cases fetch <;> simp [get_current_position]

/-- Witness for `position_cache_ttl_hit` at a concrete cached long
position, refresh time 0, read time 1, TTL 5. -/
theorem position_cache_ttl_hit_witness :
    get_current_position "ETH/USDT:USDT" 10
        ⟨some ⟨"long", 1, 100, 0, 10, "ETH/USDT:USDT"⟩, some 0, 5⟩ true 1
        (Except.ok [])
      = (some ⟨"long", 1, 100, 0, 10, "ETH/USDT:USDT"⟩,
         ⟨some ⟨"long", 1, 100, 0, 10, "ETH/USDT:USDT"⟩, some 0, 5⟩, false) :=
  (position_cache_ttl_hit ⟨"long", 1, 100, 0, 10, "ETH/USDT:USDT"⟩ 0 1 5
    "ETH/USDT:USDT" 10 (Except.ok []) (by norm_num)).1

/-- A trading signal dict as produced by `analyze_with_deepseek` /
`create_fallback_signal` in `deepseekok2.py`.  The `signal` and
`confidence` fields are raw strings, as in the source (the parsed JSON is
not validated against the enums).  `is_fallback` models
`signal_data.get('is_fallback', False)`: parsed signals lack the key. -/
structure SignalData where
  signal : String
  reason : String
  stop_loss : ℚ
  take_profit : ℚ
  confidence : String
  is_fallback : Bool
deriving DecidableEq

/-- `create_fallback_signal(price_data)` of `deepseekok2.py`: the
deterministic conservative signal (HOLD, LOW confidence, stop-loss at
98% and take-profit at 102% of the snapshot price, fallback flag set). -/
def create_fallback_signal (price : ℚ) : SignalData :=
  { signal := "HOLD"
    reason := "因技术分析暂时不可用，采取保守策略"
    stop_loss := price * (98 / 100)
    take_profit := price * (102 / 100)
    confidence := "LOW"
    is_fallback := true }

/-- The dict produced by `safe_json_parse` on the extracted JSON span,
viewed through the five required fields of a trading signal.  A field is
`none` when the key is absent from the parsed object. -/
structure RawSignal where
  signal : Option String
  reason : Option String
  stop_loss : Option ℚ
  take_profit : Option ℚ
  confidence : Option String
deriving DecidableEq

/-- The parse/validate stage of `analyze_with_deepseek` (lines 753-775):
`parse = none` models a response with no extractable balanced JSON span or
one `safe_json_parse` could not repair; otherwise the required-fields
check `all(field in signal_data for field in required_fields)` runs and
any missing field degrades to the fallback signal. -/
def validate_ai_response (parse : Option RawSignal) (price : ℚ) :
    SignalData :=
  match parse with
  | none => create_fallback_signal price
  | some raw =>
      match raw.signal, raw.reason, raw.stop_loss, raw.take_profit,
            raw.confidence with
      | some s, some r, some sl, some tp, some c =>
          { signal := s, reason := r, stop_loss := sl, take_profit := tp,
            confidence := c, is_fallback := false }
      | _, _, _, _, _ => create_fallback_signal price

/-- One of the five required fields is missing from the parsed object. -/
def missing_required_field (raw : RawSignal) : Prop :=
  raw.signal = none ∨ raw.reason = none ∨ raw.stop_loss = none ∨
    raw.take_profit = none ∨ raw.confidence = none

/-- Claim C6: for every snapshot price, an advisory response that cannot
be parsed into a JSON object, or whose parsed object lacks any required
field, yields exactly the deterministic fallback signal — HOLD, LOW
confidence, stop-loss 0.98·P, take-profit 1.02·P, fallback flag set. -/
theorem validate_ai_response_fallback (price : ℚ) (parse : Option RawSignal)
    (h : ∀ raw, parse = some raw → missing_required_field raw) :
    validate_ai_response parse price = create_fallback_signal price ∧
    (validate_ai_response parse price).signal = "HOLD" ∧
    (validate_ai_response parse price).confidence = "LOW" ∧
    (validate_ai_response parse price).stop_loss = price * (98 / 100) ∧
    (validate_ai_response parse price).take_profit = price * (102 / 100) ∧
    (validate_ai_response parse price).is_fallback = true := by
  have hmain : validate_ai_response parse price = create_fallback_signal price := by
    cases parse with
    | none => rfl
    | some raw =>
        have hm := h raw rfl
        obtain ⟨o1, o2, o3, o4, o5⟩ := raw
        cases o1 <;> cases o2 <;> cases o3 <;> cases o4 <;> cases o5 <;>
          first
          | rfl
          | simp [missing_required_field] at hm
  refine ⟨hmain, ?_, ?_, ?_, ?_, ?_⟩ <;> rw [hmain] <;> rfl

/-- Witness for `validate_ai_response_fallback` at a wholly unparsable
response and price 50000. -/
theorem validate_ai_response_fallback_witness :
    validate_ai_response none 50000 = create_fallback_signal 50000 ∧
    (validate_ai_response none 50000).stop_loss = 50000 * (98 / 100) := by
  have h := validate_ai_response_fallback 50000 none
    (fun raw hr => Option.noConfusion hr)
  exact ⟨h.1, h.2.2.2.1⟩

/-- The retry loop of `analyze_with_deepseek_with_retry` in
`deepseekok2.py`.  `outcomes n` is the oracle outcome of the `n`-th
invocation of `analyze_with_deepseek` (`Except.error` models the call
raising; a normal return always yields a truthy dict, so `Except.ok`
returns immediately).  Arguments: next attempt index, remaining attempts,
invocations made so far; result: the returned signal and the total number
of invocations of the underlying pipeline. -/
def retry_go (outcomes : ℕ → Except Unit SignalData) (price : ℚ) :
    ℕ → ℕ → ℕ → SignalData × ℕ
  | _, 0, calls => (create_fallback_signal price, calls)
  | attempt, remaining + 1, calls =>
      match outcomes attempt with
      | Except.ok s => (s, calls + 1)
      | Except.error _ =>
          retry_go outcomes price (attempt + 1) remaining (calls + 1)

/-- `analyze_with_deepseek_with_retry(price_data, max_attempts=2)` of
`deepseekok2.py`: run up to `max_attempts` invocations, returning the
first non-raising result unchanged, and the fallback signal after
exhausting all attempts. -/
def analyze_with_deepseek_with_retry (outcomes : ℕ → Except Unit SignalData)
    (price : ℚ) (max_attempts : ℕ := 2) : SignalData × ℕ :=
  retry_go outcomes price 0 max_attempts 0

/-- Claim C3: with the default `max_attempts = 2`, the retry wrapper
invokes the pipeline at most 2 times; any first invocation that returns
normally — including a returned fallback signal — is passed through
unchanged after exactly one invocation; and a second invocation happens
only when the first raised. -/
theorem analyze_retry_at_most_two (outcomes : ℕ → Except Unit SignalData)
    (price : ℚ) :
    (analyze_with_deepseek_with_retry outcomes price).2 ≤ 2 ∧
    (∀ s, outcomes 0 = Except.ok s →
      analyze_with_deepseek_with_retry outcomes price = (s, 1)) ∧
    (2 ≤ (analyze_with_deepseek_with_retry outcomes price).2 →
      outcomes 0 = Except.error ()) := by
  unfold analyze_with_deepseek_with_retry
  cases h0 : outcomes 0 with
  | ok s =>
      refine ⟨?_, ?_, ?_⟩
      · simp [retry_go, h0]
      · intro t ht
        cases ht
        simp [retry_go, h0]
      · intro hc
        simp [retry_go, h0] at hc
  | error e =>
      cases e
      refine ⟨?_, ?_, fun _ => rfl⟩
      · cases h1 : outcomes 1 <;> simp [retry_go, h0, h1]
      · intro t ht
        cases ht

/-- Witness for `analyze_retry_at_most_two`: a first invocation that
returns the fallback signal is passed through unchanged, with exactly one
invocation. -/
theorem analyze_retry_witness :
    analyze_with_deepseek_with_retry
        (fun _ => Except.ok (create_fallback_signal 100)) 100
      = (create_fallback_signal 100, 1) :=
  (analyze_retry_at_most_two
      (fun _ => Except.ok (create_fallback_signal 100)) 100).2.1
    (create_fallback_signal 100) rfl

/-- The trading-relevant fields of `TRADE_CONFIG` in `deepseekok2.py`. -/
structure TradeConfig where
  margin_usdt : ℚ
  leverage : ℚ
  position_usdt : ℚ
  test_mode : Bool
deriving DecidableEq

/-- Startup derivation
`TRADE_CONFIG['position_usdt'] = margin_usdt * leverage` (line 103). -/
def mkTradeConfig (margin leverage : ℚ) (test_mode : Bool) : TradeConfig :=
  ⟨margin, leverage, margin * leverage, test_mode⟩

/-- `MIN_ORDER_SIZE = 0.01` inside `execute_trade`. -/
def MIN_ORDER_SIZE : ℚ := 1 / 100

/-- One `exchange.create_market_order` call issued by `execute_trade`
(side, amount in contract units, OKX `posSide` tag). -/
structure OrderCall where
  side : String
  amount : ℚ
  posSide : String
deriving DecidableEq

/-- The trade record appended to `web_data['trade_history']` after a
successful open (the fields the claims are about). -/
structure TradeRecord where
  signal : String
  price : ℚ
  amount : ℚ
  margin_usdt : ℚ
  position_usdt : ℚ
  confidence : String
  reason : String
deriving DecidableEq

/-- Oracle environment of one `execute_trade` call: the cached position
read, the balance fetch (`Except.error` = the fetch raised), the
`contractSize` lookup from `load_markets` (`Except.error` = the inner
try raised, keeping the unconverted amount), and whether the market order
call succeeds. -/
structure ExecEnv where
  current_position : Option Position
  balance : Except Unit ℚ
  contractSize : Except Unit ℚ
  order_ok : Bool

/-- `execute_trade(signal_data, price_data)` of `deepseekok2.py`, returning
the order-creation calls issued to the exchange and the trade record
appended (if any).  Mirrors the source's guard order: HOLD no-op; existing
position no-op; LOW confidence outside test mode no-op; test mode no-op;
then balance fetch (an exception aborts with no order), sizing with
minimum-order-size clamping and margin/notional recomputation, contract
conversion `contracts = quantity / contractSize` (when `contractSize > 0`),
the 80%-of-balance affordability check on the (possibly recomputed) margin,
and finally the market order; the record is appended only when the order
call did not raise, and carries the recomputed margin and notional. -/
def execute_trade (signal_data : SignalData) (price : ℚ) (cfg : TradeConfig)
    (env : ExecEnv) : List OrderCall × Option TradeRecord :=
  if signal_data.signal = "HOLD" then ([], none)
  else if env.current_position.isSome then ([], none)
  else if signal_data.confidence = "LOW" ∧ cfg.test_mode = false then
    ([], none)
  else if cfg.test_mode then ([], none)
  else
    match env.balance with
    | Except.error _ => ([], none)
    | Except.ok usdt_balance =>
        let btc0 := cfg.position_usdt / price
        let sized :=
          if btc0 < MIN_ORDER_SIZE then
            (MIN_ORDER_SIZE, MIN_ORDER_SIZE * price / cfg.leverage,
             MIN_ORDER_SIZE * price)
          else (btc0, cfg.margin_usdt, cfg.position_usdt)
        let margin_usdt := sized.2.1
        let position_usdt := sized.2.2
        let btc_amount :=
          match env.contractSize with
          | Except.ok cs => if 0 < cs then sized.1 / cs else sized.1
          | Except.error _ => sized.1
        if usdt_balance * (8 / 10) < margin_usdt then ([], none)
        else if signal_data.signal = "BUY" then
          let orders := [OrderCall.mk "buy" btc_amount "long"]
          if env.order_ok then
            (orders, some ⟨signal_data.signal, price, btc_amount,
              margin_usdt, position_usdt, signal_data.confidence,
              signal_data.reason⟩)
          else (orders, none)
        else if signal_data.signal = "SELL" then
          let orders := [OrderCall.mk "sell" btc_amount "short"]
          if env.order_ok then
            (orders, some ⟨signal_data.signal, price, btc_amount,
              margin_usdt, position_usdt, signal_data.confidence,
              signal_data.reason⟩)
          else (orders, none)
        else ([], none)

/-- Claim C2: for every signal whose confidence is `LOW`, with
`test_mode = false`, `execute_trade` issues no order-creation call,
whatever the rest of the signal, the price, the configured margin and
leverage, and the exchange environment. -/
theorem execute_trade_low_confidence_noop (s r : String) (sl tp : ℚ)
    (fb : Bool) (price : ℚ) (margin leverage pu : ℚ) (env : ExecEnv) :
    (execute_trade ⟨s, r, sl, tp, "LOW", fb⟩ price
        ⟨margin, leverage, pu, false⟩ env).1 = [] := by
  unfold execute_trade
  split
  · rfl
  · split
    · rfl
    · rw [if_pos ⟨rfl, rfl⟩]

/-- Claim C7: with margin 10, leverage 10 and price 50000, the target
quantity `position_usdt / price = 0.002` is below the 0.01 minimum order
size, so it is clamped to 0.01 and the margin is recomputed as
`0.01 × 50000 / 10 = 50`; the recomputed margin 50 and notional 500 (not
the configured 10 / 100) appear in the trade record, and the affordability
check uses the recomputed margin: with a free balance of 40 the trade is
skipped (40 × 0.8 = 32 < 50), although the configured margin 10 would
have passed. -/
theorem execute_trade_min_size_clamp :
    (mkTradeConfig 10 10 false).position_usdt / 50000 = (1 : ℚ) / 500 ∧
    (1 : ℚ) / 500 < MIN_ORDER_SIZE ∧
    execute_trade ⟨"BUY", "r", 48000, 52000, "HIGH", false⟩ 50000
        (mkTradeConfig 10 10 false)
        ⟨none, Except.ok 1000, Except.ok (1 / 100), true⟩
      = ([⟨"buy", 1, "long"⟩],
         some ⟨"BUY", 50000, 1, 50, 500, "HIGH", "r"⟩) ∧
    execute_trade ⟨"BUY", "r", 48000, 52000, "HIGH", false⟩ 50000
        (mkTradeConfig 10 10 false)
        ⟨none, Except.ok 40, Except.ok (1 / 100), true⟩
      = ([], none) ∧
    (10 : ℚ) ≤ 40 * (8 / 10) := by
  refine ⟨by norm_num [mkTradeConfig], by norm_num [MIN_ORDER_SIZE],
    ?_, ?_, by norm_num⟩ <;>
    · simp [execute_trade, mkTradeConfig, MIN_ORDER_SIZE]
      norm_num

/-- One entry of `web_data['trade_history']` as read by
`check_close_position`: the executed signal string and the record's
timestamp, modelled as seconds (the source stores a formatted string and
re-parses it with `strptime`; a successfully parsed time is a rational
number of seconds here). -/
structure TradeRecEntry where
  signal : String
  timestamp : ℚ
deriving DecidableEq

/-- The parsed close decision `{should_close, reason, urgency, ...}`. -/
structure CloseResp where
  should_close : Bool
  reason : String
  urgency : String
deriving DecidableEq

/-- The timeframe-dependent minimum hold of `check_close_position`
(lines 921-929): 60 minutes for `1h`, 240 for `4h`, 30 for `15m`, else
60. -/
def min_hold_minutes (timeframe : String) : ℚ :=
  if timeframe = "1h" then 60
  else if timeframe = "4h" then 240
  else if timeframe = "15m" then 30
  else 60

/-- `check_close_position(current_position, price_data)` of
`deepseekok2.py`, restricted to its control flow: `none` position returns
immediately; when the most recent trade-history record is a BUY or SELL
whose age in minutes is below the minimum hold, the advisory service is
skipped and `none` is returned; otherwise the advisory service is
consulted (`ai` is its oracle outcome: `Except.error` = the call raised,
`Except.ok none` = no parsable JSON in the reply, `Except.ok (some r)` =
parsed decision) and only a parsed decision with `should_close` true is
returned — anything else means keep holding.  The second component of the
result records whether the advisory service was invoked. -/
def check_close_position (pos : Option Position) (timeframe : String)
    (trade_history : List TradeRecEntry) (now : ℚ)
    (ai : Except Unit (Option CloseResp)) : Option CloseResp × Bool :=
  match pos with
  | none => (none, false)
  | some _ =>
      let min_hold := min_hold_minutes timeframe
      let gate : Bool :=
        match trade_history.getLast? with
        | some last =>
            (decide (last.signal = "BUY") || decide (last.signal = "SELL"))
              && decide ((now - last.timestamp) / 60 < min_hold)
        | none => false
      if gate then (none, false)
      else
        match ai with
        | Except.error _ => (none, true)
        | Except.ok none => (none, true)
        | Except.ok (some resp) =>
            if resp.should_close then (some resp, true) else (none, true)

/-- Claim C5: under the `15m` timeframe, with a non-`none` position and a
most-recent trade record that is a BUY or SELL less than 30 minutes old,
the close-check returns `none` without invoking the advisory service. -/
theorem check_close_min_hold_gate (pos : Position)
    (hist : List TradeRecEntry) (e : TradeRecEntry) (now : ℚ)
    (ai : Except Unit (Option CloseResp))
    (hsig : e.signal = "BUY" ∨ e.signal = "SELL")
    (hhold : (now - e.timestamp) / 60 < 30) :
    check_close_position (some pos) "15m" (hist ++ [e]) now ai
      = (none, false) := by
  have hlast : (hist ++ [e]).getLast? = some e := List.getLast?_concat hist
  have hmh : min_hold_minutes "15m" = 30 := by simp [min_hold_minutes]
  unfold check_close_position
  rw [hlast, hmh]
  rcases hsig with h | h <;> simp [h, hhold]

/-- Witness for `check_close_min_hold_gate`: a long position whose only
trade record is a BUY made 300 seconds (5 minutes) before `now`, under
the 15-minute timeframe. -/
theorem check_close_min_hold_gate_witness :
    check_close_position (some ⟨"long", 1, 100, 0, 10, "ETH/USDT:USDT"⟩)
        "15m" ([] ++ [⟨"BUY", 0⟩]) 300 (Except.ok none) = (none, false) :=
  check_close_min_hold_gate ⟨"long", 1, 100, 0, 10, "ETH/USDT:USDT"⟩ []
    ⟨"BUY", 0⟩ 300 (Except.ok none) (Or.inl rfl) (by norm_num)

/-- The externally observable steps of one `trading_bot()` cycle in
`deepseekok2.py`. -/
inductive BotAction where
  | fetchSnapshot
  | readPosition
  | closeCheck
  | closeExecute
  | decisionPipeline
  | updateWebState
  | executeTrade
deriving DecidableEq

/-- The control flow of one `trading_bot()` cycle (lines 1553-1702) as the
sequence of steps it performs, driven by oracle outcomes: whether the
snapshot fetch produced data, the cached position read, the close-check
outcome, and whether the close execution succeeded.  A failed snapshot
ends the cycle; a cycle that starts with a position runs the close-check
(and, on a positive decision, the close execution, whatever its outcome)
and then returns; only a flat cycle runs the decision pipeline, the shared
state update, and `execute_trade`. -/
def trading_bot (snapshot_ok : Bool) (current_position : Option Position)
    (close_decision : Option CloseResp) (close_success : Bool) :
    List BotAction :=
  if snapshot_ok = false then [BotAction.fetchSnapshot]
  else
    match current_position with
    | some _ =>
        match close_decision with
        | some _ =>
            let _ := close_success
            [BotAction.fetchSnapshot, BotAction.readPosition,
             BotAction.closeCheck, BotAction.closeExecute]
        | none =>
            [BotAction.fetchSnapshot, BotAction.readPosition,
             BotAction.closeCheck]
    | none =>
        [BotAction.fetchSnapshot, BotAction.readPosition,
         BotAction.decisionPipeline, BotAction.updateWebState,
         BotAction.executeTrade]

/-- Claim C1: every cycle that starts with a cached position runs only the
close-check / close-execution path and never reaches the decision pipeline
or `execute_trade` in that cycle — whether the close was recommended or
declined, and whether it succeeded or failed. -/
theorem trading_bot_position_cycle_never_opens (snapshot_ok : Bool)
    (p : Position) (close_decision : Option CloseResp)
    (close_success : Bool) :
    BotAction.decisionPipeline ∉
      trading_bot snapshot_ok (some p) close_decision close_success ∧
    BotAction.executeTrade ∉
      trading_bot snapshot_ok (some p) close_decision close_success := by
  cases snapshot_ok <;> cases close_decision <;>
    simp [trading_bot]

/-- The `TokenBucket` state of `rate_limiter.py` (capacity, refill rate in
tokens per second, current tokens, last refill time). -/
structure TokenBucket where
  capacity : ℚ
  refill_rate : ℚ
  tokens : ℚ
  last_refill : ℚ
deriving DecidableEq

/-- `TokenBucket.consume(tokens)` of `rate_limiter.py` as a state
transition at wall-clock time `now`: refill by elapsed time capped at
capacity, then either take the tokens with no wait, or sleep
`(n - tokens) / refill_rate` seconds and zero the bucket.  Returns the
bucket after the call and the blocking duration (the Python method always
returns `True`; the sleep is the only blocking point). -/
def TokenBucket.consume (b : TokenBucket) (now : ℚ) (n : ℚ) :
    TokenBucket × ℚ :=
  let refilled := min b.capacity
    (b.tokens + (now - b.last_refill) * b.refill_rate)
  if n ≤ refilled then
    ({ b with tokens := refilled - n, last_refill := now }, 0)
  else
    ({ b with tokens := 0, last_refill := now },
     (n - refilled) / b.refill_rate)

/-- Claim C8: whenever the tokens available after refilling fall short of
the request `n`, the blocking duration is exactly
`(n - tokens) / refill_rate`; consequently, a fresh bucket of capacity
`cap` and rate `R` that has just had its full capacity consumed blocks an
immediate request for 1 token for `1 / R` seconds. -/
theorem tokenBucket_consume_wait (b : TokenBucket) (now n : ℚ)
    (cap R t : ℚ)
    (h : min b.capacity (b.tokens + (now - b.last_refill) * b.refill_rate)
          < n)
    (hcap : 0 ≤ cap) (_hR : 0 < R) :
    (b.consume now n).2
        = (n - min b.capacity
            (b.tokens + (now - b.last_refill) * b.refill_rate))
          / b.refill_rate ∧
    (((TokenBucket.mk cap R cap t).consume t cap).1.consume t 1).2
        = 1 / R := by
  constructor
  · unfold TokenBucket.consume
    rw [if_neg (not_le.mpr h)]
  · unfold TokenBucket.consume
    simp only [sub_self, zero_mul, add_zero, min_self, le_refl, if_pos,
      sub_self, zero_add, mul_zero]
    rw [min_eq_right hcap, if_neg (by norm_num), sub_zero]

/-- Witness for `tokenBucket_consume_wait`: an empty bucket of capacity 20
and rate 10 asked for one token immediately blocks `1/10` seconds; and a
drained bucket of capacity 5 and rate 2 blocks `1/2` second for the next
token. -/
theorem tokenBucket_consume_wait_witness :
    ((TokenBucket.mk 20 10 0 0).consume 0 1).2
        = (1 - min 20 ((0 : ℚ) + (0 - 0) * 10)) / 10 ∧
    (((TokenBucket.mk 5 2 5 0).consume 0 5).1.consume 0 1).2 = 1 / 2 :=
  tokenBucket_consume_wait ⟨20, 10, 0, 0⟩ 0 1 5 2 0 (by norm_num)
    (by norm_num) (by norm_num)

/-- One iteration of the `health_monitor()` loop body of `app.py` on a
readable, parsable `last_update`: `time_diff` is `now - last_update` in
seconds, the staleness threshold is 300 seconds and the restart cap is 5.
Returns the restart counter after the iteration, whether a replacement
trading thread was spawned, and whether monitoring stopped (the loop's
`break`).  A failing check increments the counter and either stops
monitoring (counter reached 5) or spawns a replacement; a passing check
sets the counter straight back to 0. -/
def health_check_step (restart_count : ℕ) (time_diff : ℚ) :
    ℕ × Bool × Bool :=
  if 300 < time_diff then
    if 5 ≤ restart_count + 1 then (restart_count + 1, false, true)
    else (restart_count + 1, true, false)
  else (0, false, false)

/-- The monitor loop over a list of successive staleness readings (one per
check interval, 60 seconds apart), stopping when an iteration breaks. -/
def health_monitor_run : ℕ → List ℚ → ℕ
  | rc, [] => rc
  | rc, d :: ds =>
      let step := health_check_step rc d
      if step.2.2 then step.1 else health_monitor_run step.1 ds

/-- Claim C9 counterexample: with the restart counter at 3, a single
passing check (staleness 100 s ≤ 300 s) — one 60-second check interval of
health, far short of an hour — already resets the counter to 0.  The
source resets on every individual passing check (`restart_count = 0` in
the healthy branch of `app.py`), so earlier restarts do not keep counting
until an hour of sustained health has elapsed. -/
theorem health_monitor_single_pass_resets :
    health_check_step 3 100 = (0, false, false) ∧
    health_monitor_run 3 [100] = 0 ∧ (0 : ℕ) ≠ 3 := by
  refine ⟨?_, ?_, by norm_num⟩ <;>
    simp [health_check_step, health_monitor_run] <;> norm_num

/-- Claim C9 (amended): the restart counter resets to 0 on every passing
staleness check (a single check interval of health suffices, not an hour);
a failing check increments it, and monitoring stops exactly when the
incremented counter reaches the maximum of 5. -/
theorem health_monitor_reset_on_pass (rc : ℕ) (d : ℚ) :
    (d ≤ 300 → health_check_step rc d = (0, false, false)) ∧
    (300 < d → (health_check_step rc d).1 = rc + 1 ∧
      ((health_check_step rc d).2.2 = true ↔ 5 ≤ rc + 1)) := by
  constructor
  · intro h
    unfold health_check_step
    rw [if_neg (not_lt.mpr h)]
  · intro h
    unfold health_check_step
    rw [if_pos h]
    by_cases h5 : 5 ≤ rc + 1 <;> simp [h5]

/-- Witness for `health_monitor_reset_on_pass` at counter 4: a passing
check resets to 0, and a failing check reaches the cap and stops
monitoring. -/
theorem health_monitor_reset_on_pass_witness :
    health_check_step 4 100 = (0, false, false) ∧
    (health_check_step 4 400).1 = 5 ∧
    ((health_check_step 4 400).2.2 = true ↔ 5 ≤ 4 + 1) :=
  ⟨(health_monitor_reset_on_pass 4 100).1 (by norm_num),
   (health_monitor_reset_on_pass 4 400).2 (by norm_num)⟩

end AlphaArena
